import Mathlib

/-!
# Verification of the video ingestion pipeline (handler_upload_video.go)

A shallow embedding of the video-upload handler of this repository:

* `mediaTypeToVideoExtension`, `almostEqual`, `getVideoAspectRatio`,
  `processVideoForFastStart` (modelled only through its success flag),
  the key generation of lines 196-205, `handlerUploadVideo`, and
  `dbVideoToSignedVideo` / `generatePresignedURL` (the presign call is an
  oracle parameter).

Modelling choices:

* Go `float64` arithmetic in `getVideoAspectRatio` is embedded as exact
  rational (`Rat`) arithmetic.  The only division performed is
  `float64(width) / float64(height)`; Go float division never panics, and
  for `height = 0` it yields `±Inf`/`NaN`, none of which is within the
  `1e-3` tolerance of `16/9` or `9/16`.  In the `Rat` model division by
  zero yields `0`, which is likewise within tolerance of neither target,
  so the classification outcome agrees with the Go code on every input.
* The external collaborators (uuid parsing, JWT validation, the record
  store, multipart parsing, ffprobe/ffmpeg process execution, S3) are
  embedded as fields of `UploadRequest` carrying the outcome each
  collaborator returns for this request; the handler body then mirrors the
  Go control flow over those outcomes and records its observable effects
  (form parse, temp staging, deferred removals, the PutObject key, the
  record passed to UpdateVideo) in an explicit `Effects` log.  Go `defer`
  of the two `os.Remove` calls is embedded by wrapping the continuation of
  the handler after each successful file creation and forcing the
  corresponding `Removed` flag on every result of that continuation.
-/

/-- Modelled from the spec: the `VideoRecord` of the record-store
collaborator (`internal/database`, not part of the staged sources) — an
identifier, the owning-user identifier and the optional stored-object
reference; only the fields the upload handler touches are carried. -/
structure Video where
  id : String
  userID : String
  videoURL : Option String
deriving DecidableEq

/-- One stream of the parsed ffprobe report: width, height and the optional
explicit `display_aspect_ratio` string (lines 43-49). -/
structure StreamInfo where
  width : Int
  height : Int
  display_aspect_ratio : String
deriving DecidableEq

/-- Lines 25-34: map a declared media type to a video file extension,
`""` for an unsupported type. -/
def mediaTypeToVideoExtension (mediaType : String) : String :=
  if mediaType = "video/mp4" then "mp4"
  else if mediaType = "video/quicktime" then "mov"
  else ""

/-- Line 36: `const float64EqualityThreshold = 1e-3`. -/
def float64EqualityThreshold : Rat := 1 / 1000

/-- Lines 38-40: `math.Abs(a-b) <= float64EqualityThreshold`. -/
def almostEqual (a b : Rat) : Bool :=
  decide (|a - b| ≤ float64EqualityThreshold)

/-- Lines 42-87 after the ffprobe invocation and JSON parse: the
classification of a parsed stream report.  Zero streams is an error; the
first stream with a non-empty `display_aspect_ratio` string wins; otherwise
the first stream's width/height ratio is bucketed with `almostEqual`. -/
def getVideoAspectRatio (streams : List StreamInfo) : Except String String :=
  match streams with
  | [] => Except.error "no streams found"
  | s0 :: rest =>
    match (s0 :: rest).find? (fun s => s.display_aspect_ratio != "") with
    | some s => Except.ok s.display_aspect_ratio
    | none =>
      let w : Rat := (s0.width : Rat)
      let h : Rat := (s0.height : Rat)
      if almostEqual (w / h) (16 / 9) then Except.ok "16:9"
      else if almostEqual (w / h) (9 / 16) then Except.ok "9:16"
      else Except.ok "other"

/-- Lines 175-181: the `switch` mapping the aspect-ratio string returned by
`getVideoAspectRatio` to the storage-key classification. -/
def aspectRatioToPrefix (ar : String) : String :=
  if ar = "16:9" then "landscape"
  else if ar = "9:16" then "portrait"
  else "other"

/-- The classification an upload derives from a parsed probe report:
`getVideoAspectRatio` (lines 67-86) followed by the prefix `switch`
(lines 175-181). -/
def classifyReport (streams : List StreamInfo) : Except String String :=
  match getVideoAspectRatio streams with
  | Except.error e => Except.error e
  | Except.ok ar => Except.ok (aspectRatioToPrefix ar)

example : classifyReport [⟨1000, 1000, "9:16"⟩] = Except.ok "portrait" := by
  simp [classifyReport, getVideoAspectRatio, aspectRatioToPrefix, List.find?]
example : classifyReport [⟨1920, 1080, ""⟩] = Except.ok "landscape" := by
  simp only [classifyReport, getVideoAspectRatio, List.find?]
  norm_num [almostEqual, float64EqualityThreshold, abs_le, aspectRatioToPrefix]
example : classifyReport [⟨1000, 0, ""⟩] = Except.ok "other" := by
  simp only [classifyReport, getVideoAspectRatio, List.find?]
  norm_num [almostEqual, float64EqualityThreshold, abs_le]
  decide
example : classifyReport [] = Except.error "no streams found" := rfl

/-! ## ContentKeyGenerator: random token encoding and the object key

Lines 196-205 of `handlerUploadVideo`: 32 bytes from `crypto/rand`,
`base64.RawURLEncoding` (URL-safe alphabet, no padding), then
`fmt.Sprintf("%s/%s.%s", videoPrefix, s3VideoID, ext)`. -/

/-- The 64 characters of Go's `base64.RawURLEncoding` alphabet
(`A-Z a-z 0-9 - _`), as a list indexed by the 6-bit value. -/
def base64URLAlphabet : List Char :=
  "ABCDEFGHIJKLMNOPQRSTUVWXYZabcdefghijklmnopqrstuvwxyz0123456789-_".toList

/-- The alphabet character of a 6-bit group. -/
def b64Char (n : Nat) : Char := base64URLAlphabet.getD n 'A'

/-- Whether a character belongs to the URL-safe base64 character class
`[A-Za-z0-9_-]`. -/
def isBase64URLChar (c : Char) : Bool :=
  ('A' ≤ c && c ≤ 'Z') || ('a' ≤ c && c ≤ 'z') || ('0' ≤ c && c ≤ '9') ||
    c == '-' || c == '_'

/-- Go's `base64.RawURLEncoding.Encode`: big-endian 6-bit groups over the
byte string, no padding; a final group of one byte yields two characters
and of two bytes yields three. -/
def base64RawURLEncode : List Nat → List Char
  | [] => []
  | [b0] => [b64Char (b0 / 4), b64Char (b0 % 4 * 16)]
  | [b0, b1] => [b64Char (b0 / 4), b64Char (b0 % 4 * 16 + b1 / 16),
      b64Char (b1 % 16 * 4)]
  | b0 :: b1 :: b2 :: rest =>
      b64Char (b0 / 4) :: b64Char (b0 % 4 * 16 + b1 / 16) ::
        b64Char (b1 % 16 * 4 + b2 / 64) :: b64Char (b2 % 64) ::
        base64RawURLEncode rest

/-- Lines 202-205: the object key
`fmt.Sprintf("%s/%s.%s", videoPrefix, s3VideoID, mediaTypeToVideoExtension(mediaType))`
for the token encoded from the random bytes. -/
def generateVideoKey (videoPrefix : String) (mediaType : String)
    (rawVideoID : List Nat) : String :=
  videoPrefix ++ "/" ++ String.mk (base64RawURLEncode rawVideoID) ++ "." ++
    mediaTypeToVideoExtension mediaType

/-! ## The composite stored-object reference and its split

Line 217 encodes `fmt.Sprintf("%s,%s", cfg.s3Bucket, s3VideoKey)`; lines
241-247 split it again with `strings.Split(url, ",")` and take components 0
and 1. `splitOnChar` is Go's `strings.Split` for a one-character
separator, over the character list of the string. -/

/-- `strings.Split` on a single-character separator, over char lists: the
(possibly empty) runs between occurrences of `c`; never returns `[]`. -/
def splitOnChar (c : Char) : List Char → List (List Char)
  | [] => [[]]
  | x :: xs =>
    let rest := splitOnChar c xs
    if x = c then [] :: rest
    else (x :: rest.headI) :: rest.tail

/-- `strings.Split(s, ",")` as the handler uses it. -/
def splitComma (s : String) : List String :=
  (splitOnChar ',' s.data).map (fun l => String.mk l)

example : splitComma "bucket,landscape/tok.mp4" = ["bucket", "landscape/tok.mp4"] := by
  decide
example : splitComma "a,b,c" = ["a", "b", "c"] := by decide
example : splitComma "nocomma" = ["nocomma"] := by decide
example : base64RawURLEncode (List.replicate 32 0) =
    "AAAAAAAAAAAAAAAAAAAAAAAAAAAAAAAAAAAAAAAAAAA".toList := by decide

/-! ## dbVideoToSignedVideo (lines 233-255)

`generatePresignedURL` (lines 257-278) wraps the AWS presign client; it is
embedded as the oracle `presign : String → String → Except String String`
standing for `generatePresignedURL(ctx, cfg.s3Client, bucket, key,
15*time.Minute)`. -/

/-- Lines 233-255: a record with no stored reference, or whose reference
splits into fewer than two comma-separated components, is returned
unchanged; otherwise the first two components are presigned as bucket and
key and the URL of the returned copy is replaced for the response. -/
def dbVideoToSignedVideo (presign : String → String → Except String String)
    (video : Video) : Except String Video :=
  match video.videoURL with
  | none => Except.ok video
  | some url =>
    let components := splitComma url
    if components.length < 2 then Except.ok video
    else
      let bucket := components.getD 0 ""
      let key := components.getD 1 ""
      match presign bucket key with
      | Except.error e => Except.error e
      | Except.ok signedURL => Except.ok { video with videoURL := some signedURL }

/-! ## The upload handler (lines 99-231)

`apiConfig` keeps the one configuration field the claims are about; the
JWT secret, the S3 client and the record store act only through the
per-request outcomes below.

`UploadRequest` carries the request data and the outcome of each external
collaborator call the handler makes, in the order the Go code makes them;
`Effects` is the log of the handler's observable actions on the stores and
the local filesystem. -/

structure apiConfig where
  s3Bucket : String

/-- The request together with the outcomes of the external collaborators:
`videoID` is the parsed path value (`none` = `uuid.Parse` error),
`bearerToken` the `auth.GetBearerToken` result, `validatedUser` the
`auth.ValidateJWT` result, `dbVideo` the `cfg.db.GetVideo` result,
`mediaType` the `mime.ParseMediaType` result for the form file's
Content-Type, `probeStreams` the parsed ffprobe report (`none` = the
ffprobe process or the JSON parse failed), `randBytes` what
`crypto/rand.Read` fills the 32-byte buffer with, the `*Ok` flags the
success of the corresponding fallible step, and `presign` the presign
oracle of `dbVideoToSignedVideo`. -/
structure UploadRequest where
  videoID : Option String
  bearerToken : Option String
  validatedUser : Option String
  dbVideo : Option Video
  parseFormOk : Bool
  formFileOk : Bool
  mediaType : Option String
  createTempOk : Bool
  copyOk : Bool
  probeStreams : Option (List StreamInfo)
  ffmpegOk : Bool
  openProcessedOk : Bool
  randOk : Bool
  randBytes : List Nat
  putOk : Bool
  updateOk : Bool
  presign : String → String → Except String String

/-- The handler's observable effects: whether `r.ParseMultipartForm` ran,
whether the staged temp file was created and whether its deferred
`os.Remove` ran, whether ffprobe/ffmpeg were invoked, whether the
transcoded artifact was created and whether its deferred `os.Remove` ran,
the key passed to `s3Client.PutObject` (`none` = no put call), the record
passed to `db.UpdateVideo` (`none` = no update call), and whether the
signing conversion ran. -/
structure Effects where
  formParsed : Bool
  tempCreated : Bool
  tempRemoved : Bool
  probeCalled : Bool
  ffmpegCalled : Bool
  processedCreated : Bool
  processedRemoved : Bool
  putKey : Option String
  updateCalled : Option Video
  signCalled : Bool
deriving DecidableEq

def noEffects : Effects :=
  ⟨false, false, false, false, false, false, false, none, none, false⟩

/-- What `handlerUploadVideo` sends back: the HTTP status and message of
`respondWithError`, or status 200 with the signed record as the
`respondWithJSON` payload; plus the effect log. -/
structure HandlerResult where
  status : Nat
  message : String
  video : Option Video
  effects : Effects

/-- Lines 189-230: the part of the handler that runs after
`processVideoForFastStart` succeeded; the deferred
`os.Remove(processedFilePath)` is applied by the caller to every result of
this function. -/
def uploadAfterProcessed (cfg : apiConfig) (r : UploadRequest) (dbVideo : Video)
    (mediaType videoPrefix : String) (eff : Effects) : HandlerResult :=
  if r.openProcessedOk = false then
    ⟨500, "Error opening processed file", none, eff⟩
  else if r.randOk = false then
    ⟨500, "Error generating thumbnail ID", none, eff⟩
  else
    let s3VideoKey := generateVideoKey videoPrefix mediaType r.randBytes
    let eff1 := { eff with putKey := some s3VideoKey }
    if r.putOk = false then
      ⟨500, "Error uploading video to S3", none, eff1⟩
    else
      let videoURL := cfg.s3Bucket ++ "," ++ s3VideoKey
      let dbVideo2 := { dbVideo with videoURL := some videoURL }
      let eff2 := { eff1 with updateCalled := some dbVideo2 }
      if r.updateOk = false then
        ⟨500, "Error updating video", none, eff2⟩
      else
        let eff3 := { eff2 with signCalled := true }
        match dbVideoToSignedVideo r.presign dbVideo2 with
        | Except.error _ => ⟨500, "Error signing video URL", none, eff3⟩
        | Except.ok signedVideo => ⟨200, "", some signedVideo, eff3⟩

/-- Lines 164-230: the part of the handler that runs after the temp file
was staged; the deferred `os.Remove(tempFile.Name())` is applied by the
caller to every result of this function.  On ffmpeg success the transcoded
artifact exists and its own deferred removal wraps the continuation. -/
def uploadAfterTemp (cfg : apiConfig) (r : UploadRequest) (dbVideo : Video)
    (mediaType : String) (eff : Effects) : HandlerResult :=
  if r.copyOk = false then
    ⟨500, "Error copying file to temp", none, eff⟩
  else
    let eff1 := { eff with probeCalled := true }
    let probed : Except String String :=
      match r.probeStreams with
      | none => Except.error "ffprobe failed"
      | some streams => getVideoAspectRatio streams
    match probed with
    | Except.error _ => ⟨500, "Error getting video aspect ratio", none, eff1⟩
    | Except.ok aspect =>
      let videoPrefix := aspectRatioToPrefix aspect
      let eff2 := { eff1 with ffmpegCalled := true }
      if r.ffmpegOk = false then
        ⟨500, "Error processing video for fast start", none, eff2⟩
      else
        let eff3 := { eff2 with processedCreated := true }
        let res := uploadAfterProcessed cfg r dbVideo mediaType videoPrefix eff3
        { res with effects := { res.effects with processedRemoved := true } }

/-- Lines 99-231: the upload handler.  Sequential early-return control flow
over the collaborator outcomes of `r`, mirroring the Go source order:
uuid parse, bearer token, JWT validation, record fetch, ownership check,
multipart parse, form file, media type parse and exact `video/mp4` check,
temp staging (with deferred removal), copy, probe + classification, fast
start transcode (with deferred removal of the artifact), key generation,
put, record update, signing. -/
def handlerUploadVideo (cfg : apiConfig) (r : UploadRequest) : HandlerResult :=
  match r.videoID with
  | none => ⟨400, "Invalid ID", none, noEffects⟩
  | some _ =>
    match r.bearerToken with
    | none => ⟨401, "Couldn't find JWT", none, noEffects⟩
    | some _ =>
      match r.validatedUser with
      | none => ⟨401, "Couldn't validate JWT", none, noEffects⟩
      | some userID =>
        match r.dbVideo with
        | none => ⟨404, "Error getting video", none, noEffects⟩
        | some dbVideo =>
          if dbVideo.userID ≠ userID then
            ⟨401, "User does not own video", none, noEffects⟩
          else
            let eff := { noEffects with formParsed := true }
            if r.parseFormOk = false then
              ⟨400, "Error parsing form", none, eff⟩
            else if r.formFileOk = false then
              ⟨400, "Unable to parse form file", none, eff⟩
            else
              match r.mediaType with
              | none => ⟨400, "Error parsing media type", none, eff⟩
              | some mediaType =>
                if mediaType ≠ "video/mp4" then
                  ⟨400, "Invalid media type", none, eff⟩
                else if r.createTempOk = false then
                  ⟨500, "Error creating temp file", none, eff⟩
                else
                  let eff1 := { eff with tempCreated := true }
                  let res := uploadAfterTemp cfg r dbVideo mediaType eff1
                  { res with effects := { res.effects with tempRemoved := true } }

/-! ## Shared classification lemmas -/

/-- When no stream of the report carries a non-empty explicit
`display_aspect_ratio` string, the classification is bucketed from the
first stream's width/height ratio against the `1e-3` tolerance. -/
theorem classifyReport_of_no_dar (s0 : StreamInfo) (rest : List StreamInfo)
    (hall : ∀ s ∈ s0 :: rest, s.display_aspect_ratio = "") :
    classifyReport (s0 :: rest) = Except.ok
      (if |(s0.width : Rat) / (s0.height : Rat) - 16 / 9| ≤ 1 / 1000 then "landscape"
       else if |(s0.width : Rat) / (s0.height : Rat) - 9 / 16| ≤ 1 / 1000 then "portrait"
       else "other") := by
  have hfind : (s0 :: rest).find? (fun t => t.display_aspect_ratio != "") = none := by
    rw [List.find?_eq_none]
    intro x hx
    simp [hall x hx]
  simp only [classifyReport, getVideoAspectRatio, hfind, almostEqual,
    float64EqualityThreshold, decide_eq_true_eq]
  split_ifs <;> simp [aspectRatioToPrefix]

/-! ## C1: explicit display-aspect-ratio strings take precedence -/

/-- C1: for every probe report containing at least one stream with a
non-empty explicit display-aspect-ratio string, classification is derived
from the first such string in report order, overriding any numeric
geometry: "16:9" classifies as landscape, "9:16" as portrait, and any
other explicit value as other. -/
theorem explicit_aspect_string_precedence (streams : List StreamInfo)
    (s : StreamInfo)
    (hfind : streams.find? (fun t => t.display_aspect_ratio != "") = some s) :
    classifyReport streams = Except.ok
      (if s.display_aspect_ratio = "16:9" then "landscape"
       else if s.display_aspect_ratio = "9:16" then "portrait"
       else "other") := by
  cases streams with
  | nil => simp at hfind
  | cons s0 rest =>
    simp only [classifyReport, getVideoAspectRatio, hfind, aspectRatioToPrefix]

/-- C1 witness: a report with `display_aspect_ratio: "9:16"` and geometry
1000x1000 (numerically neither bucket) classifies as portrait. -/
theorem explicit_aspect_string_precedence_witness :
    classifyReport [⟨1000, 1000, "9:16"⟩] = Except.ok "portrait" := by
  have h := explicit_aspect_string_precedence [⟨1000, 1000, "9:16"⟩]
    ⟨1000, 1000, "9:16"⟩ (by decide)
  simpa using h

/-! ## C2: numeric width/height fallback -/

/-- C2: for every probe report with at least one stream and no stream
carrying a non-empty explicit aspect-ratio string, classification is
computed from the first stream's width divided by its height: within
tolerance 1/1000 of 16/9 is landscape, within 1/1000 of 9/16 is portrait,
anything else is other. -/
theorem numeric_fallback_classification (s0 : StreamInfo)
    (rest : List StreamInfo)
    (hall : ∀ s ∈ s0 :: rest, s.display_aspect_ratio = "") :
    classifyReport (s0 :: rest) = Except.ok
      (if |(s0.width : Rat) / (s0.height : Rat) - 16 / 9| ≤ 1 / 1000 then "landscape"
       else if |(s0.width : Rat) / (s0.height : Rat) - 9 / 16| ≤ 1 / 1000 then "portrait"
       else "other") :=
  classifyReport_of_no_dar s0 rest hall

/-- C2 witness: 1920x1080 classifies as landscape, 1080x1920 as portrait,
1000x1000 as other. -/
theorem numeric_fallback_classification_witness :
    classifyReport [⟨1920, 1080, ""⟩] = Except.ok "landscape" ∧
    classifyReport [⟨1080, 1920, ""⟩] = Except.ok "portrait" ∧
    classifyReport [⟨1000, 1000, ""⟩] = Except.ok "other" := by
  refine ⟨?_, ?_, ?_⟩
  · rw [numeric_fallback_classification ⟨1920, 1080, ""⟩ [] (by decide)]
    norm_num [abs_le]
  · rw [numeric_fallback_classification ⟨1080, 1920, ""⟩ [] (by decide)]
    norm_num [abs_le]
  · rw [numeric_fallback_classification ⟨1000, 1000, ""⟩ [] (by decide)]
    norm_num [abs_le]

/-! ## C3: height zero is not in fact guarded -/

/-- C3 counterexample: a report whose only stream has height 0 and no
explicit aspect string does not make inspection fail; the code classifies
it as "other" (in Go the float division yields a non-finite value, which
is within tolerance of neither bucket; no division-by-zero error or crash
occurs, and no `NoStreamsFound` error is returned). -/
theorem zero_height_not_an_error :
    classifyReport [⟨1000, 0, ""⟩] = Except.ok "other" := by
  simp only [classifyReport, getVideoAspectRatio, List.find?]
  norm_num [almostEqual, float64EqualityThreshold, abs_le]
  decide

/-- C3 amended: for every probe report whose first stream has height zero
and no stream has a non-empty explicit aspect-ratio string, inspection
does not crash and does not fail: the degenerate ratio matches neither the
16/9 nor the 9/16 bucket and the report classifies as "other". -/
theorem zero_height_classifies_other (w : Int) (rest : List StreamInfo)
    (hall : ∀ s ∈ rest, s.display_aspect_ratio = "") :
    classifyReport (⟨w, 0, ""⟩ :: rest) = Except.ok "other" := by
  have hall2 : ∀ s ∈ (⟨w, 0, ""⟩ : StreamInfo) :: rest,
      s.display_aspect_ratio = "" := by
    intro s hs
    rcases List.mem_cons.mp hs with h | h
    · rw [h]
    · exact hall s h
  rw [classifyReport_of_no_dar ⟨w, 0, ""⟩ rest hall2]
  norm_num [abs_le]

/-- C3 amended witness: the concrete 1000x0 report classifies as "other". -/
theorem zero_height_classifies_other_witness :
    classifyReport [⟨1000, 0, ""⟩] = Except.ok "other" :=
  zero_height_classifies_other 1000 [] (by simp)

/-! ## Witness fixtures: a configuration and concrete requests -/

def cfgW : apiConfig := ⟨"tube"⟩

def dbvW : Video := ⟨"vid", "uid", none⟩

/-- A request that passes authentication, ownership and form parsing but
declares `video/mpeg`. -/
def reqNonMp4 : UploadRequest :=
  ⟨some "vid", some "tok", some "uid", some dbvW, true, true,
   some "video/mpeg", false, false, none, false, false, false, [],
   false, false, fun _ _ => Except.error "unused"⟩

/-- A request authenticated as a user who does not own the target video. -/
def reqNonOwner : UploadRequest :=
  ⟨some "vid", some "tok", some "intruder", some dbvW, true, true,
   some "video/mp4", true, true, none, false, false, false, [],
   false, false, fun _ _ => Except.error "unused"⟩

/-! ## C4: only video/mp4 is accepted -/

/-- C4: for every upload request that reaches the media-type check (valid
id, authenticated, owning user, multipart form and form file parsed) and
whose declared content-type does not parse to exactly `video/mp4`, the
handler fails with status 400 and neither the object-store put nor the
record update occurs. -/
theorem upload_rejects_unsupported_media_type
    (cfg : apiConfig) (r : UploadRequest) (vid tok uid : String) (dbv : Video)
    (h1 : r.videoID = some vid) (h2 : r.bearerToken = some tok)
    (h3 : r.validatedUser = some uid) (h4 : r.dbVideo = some dbv)
    (h5 : dbv.userID = uid) (h6 : r.parseFormOk = true)
    (h7 : r.formFileOk = true) (h8 : r.mediaType ≠ some "video/mp4") :
    (handlerUploadVideo cfg r).status = 400 ∧
    (handlerUploadVideo cfg r).effects.putKey = none ∧
    (handlerUploadVideo cfg r).effects.updateCalled = none := by
  cases hm : r.mediaType with
  | none => simp [handlerUploadVideo, h1, h2, h3, h4, h5, h6, h7, hm, noEffects]
  | some m =>
    have hne : m ≠ "video/mp4" := by
      intro he
      exact h8 (by rw [hm, he])
    simp [handlerUploadVideo, h1, h2, h3, h4, h5, h6, h7, hm, hne, noEffects]

/-- C4 witness: the declared type `video/mpeg` is rejected with 400 and no
store call happens. -/
theorem upload_rejects_unsupported_media_type_witness :
    (handlerUploadVideo cfgW reqNonMp4).status = 400 ∧
    (handlerUploadVideo cfgW reqNonMp4).effects.putKey = none ∧
    (handlerUploadVideo cfgW reqNonMp4).effects.updateCalled = none :=
  upload_rejects_unsupported_media_type cfgW reqNonMp4 "vid" "tok" "uid" dbvW
    rfl rfl rfl rfl rfl rfl rfl (by decide)

/-! ## C7: ownership is checked before any file I/O -/

/-- C7: for every upload request whose authenticated user differs from the
owning user of the target record, the handler fails with 401 before the
request body is parsed and before any staging file is created: no
multipart parse, no temp file, no put. -/
theorem upload_rejects_non_owner
    (cfg : apiConfig) (r : UploadRequest) (vid tok uid : String) (dbv : Video)
    (h1 : r.videoID = some vid) (h2 : r.bearerToken = some tok)
    (h3 : r.validatedUser = some uid) (h4 : r.dbVideo = some dbv)
    (h5 : dbv.userID ≠ uid) :
    (handlerUploadVideo cfg r).status = 401 ∧
    (handlerUploadVideo cfg r).effects.formParsed = false ∧
    (handlerUploadVideo cfg r).effects.tempCreated = false ∧
    (handlerUploadVideo cfg r).effects.putKey = none := by
  simp [handlerUploadVideo, h1, h2, h3, h4, h5, noEffects]

/-- C7 witness: a non-owning authenticated user is turned away with 401
and no effects. -/
theorem upload_rejects_non_owner_witness :
    (handlerUploadVideo cfgW reqNonOwner).status = 401 ∧
    (handlerUploadVideo cfgW reqNonOwner).effects.formParsed = false ∧
    (handlerUploadVideo cfgW reqNonOwner).effects.tempCreated = false ∧
    (handlerUploadVideo cfgW reqNonOwner).effects.putKey = none :=
  upload_rejects_non_owner cfgW reqNonOwner "vid" "tok" "intruder" dbvW
    rfl rfl rfl rfl (by decide)

/-! ## C9: deferred cleanup on every exit path -/

/-- `uploadAfterProcessed` never touches the staging/cleanup flags: they
come out as they went in. -/
theorem uploadAfterProcessed_preserves_cleanup (cfg : apiConfig)
    (r : UploadRequest) (dbv : Video) (mt vp : String) (eff : Effects) :
    (uploadAfterProcessed cfg r dbv mt vp eff).effects.tempCreated = eff.tempCreated ∧
    (uploadAfterProcessed cfg r dbv mt vp eff).effects.tempRemoved = eff.tempRemoved ∧
    (uploadAfterProcessed cfg r dbv mt vp eff).effects.processedCreated = eff.processedCreated ∧
    (uploadAfterProcessed cfg r dbv mt vp eff).effects.processedRemoved = eff.processedRemoved := by
  unfold uploadAfterProcessed
  by_cases h1 : r.openProcessedOk = false
  · simp [h1]
  · by_cases h2 : r.randOk = false
    · simp [h1, h2]
    · by_cases h3 : r.putOk = false
      · simp [h1, h2, h3]
      · by_cases h4 : r.updateOk = false
        · simp [h1, h2, h3, h4]
        · cases hdv : dbVideoToSignedVideo r.presign ({ dbv with
            videoURL := some (cfg.s3Bucket ++ "," ++ generateVideoKey vp mt r.randBytes) }) with
          | error e => simp [h1, h2, h3, h4, hdv]
          | ok sv => simp [h1, h2, h3, h4, hdv]

/-- After `uploadAfterTemp`, a transcoded artifact that was created has
also been removed (given that none existed on entry), and the staging
flags pass through unchanged. -/
theorem uploadAfterTemp_cleanup (cfg : apiConfig) (r : UploadRequest)
    (dbv : Video) (mt : String) (eff : Effects)
    (h : eff.processedCreated = false) :
    ((uploadAfterTemp cfg r dbv mt eff).effects.processedCreated = true →
      (uploadAfterTemp cfg r dbv mt eff).effects.processedRemoved = true) ∧
    (uploadAfterTemp cfg r dbv mt eff).effects.tempCreated = eff.tempCreated := by
  by_cases h1 : r.copyOk = false
  · simp [uploadAfterTemp, h1, h]
  · cases hp : r.probeStreams with
    | none => simp [uploadAfterTemp, h1, hp, h]
    | some streams =>
      cases hg : getVideoAspectRatio streams with
      | error e => simp [uploadAfterTemp, h1, hp, hg, h]
      | ok aspect =>
        by_cases h2 : r.ffmpegOk = false
        · simp [uploadAfterTemp, h1, hp, hg, h2, h]
        · have hpp := uploadAfterProcessed_preserves_cleanup cfg r dbv mt
            (aspectRatioToPrefix aspect)
            ({ eff with probeCalled := true, ffmpegCalled := true, processedCreated := true })
          simp only [uploadAfterTemp, h1, hp, hg, h2] at *
          simp at hpp ⊢
          simp [hpp.1]

/-- C9: on every exit path of the upload handler, a staged temp file that
was created has been removed by its deferred cleanup before the handler
returns, and likewise every transcoded artifact that was created: neither
outlives the request. -/
theorem upload_cleans_local_files (cfg : apiConfig) (r : UploadRequest) :
    ((handlerUploadVideo cfg r).effects.tempCreated = true →
      (handlerUploadVideo cfg r).effects.tempRemoved = true) ∧
    ((handlerUploadVideo cfg r).effects.processedCreated = true →
      (handlerUploadVideo cfg r).effects.processedRemoved = true) := by
  cases hv : r.videoID with
  | none => simp [handlerUploadVideo, hv, noEffects]
  | some vid =>
  cases hb : r.bearerToken with
  | none => simp [handlerUploadVideo, hv, hb, noEffects]
  | some tok =>
  cases hu : r.validatedUser with
  | none => simp [handlerUploadVideo, hv, hb, hu, noEffects]
  | some uid =>
  cases hd : r.dbVideo with
  | none => simp [handlerUploadVideo, hv, hb, hu, hd, noEffects]
  | some dbv =>
  by_cases hown : dbv.userID = uid
  case neg => simp [handlerUploadVideo, hv, hb, hu, hd, hown, noEffects]
  case pos =>
  by_cases hpf : r.parseFormOk = false
  case pos => simp [handlerUploadVideo, hv, hb, hu, hd, hown, hpf, noEffects]
  case neg =>
  by_cases hff : r.formFileOk = false
  case pos => simp [handlerUploadVideo, hv, hb, hu, hd, hown, hpf, hff, noEffects]
  case neg =>
  cases hm : r.mediaType with
  | none => simp [handlerUploadVideo, hv, hb, hu, hd, hown, hpf, hff, hm, noEffects]
  | some m =>
  by_cases hmt : m = "video/mp4"
  case neg =>
    simp [handlerUploadVideo, hv, hb, hu, hd, hown, hpf, hff, hm, hmt, noEffects]
  case pos =>
  by_cases hct : r.createTempOk = false
  case pos =>
    simp [handlerUploadVideo, hv, hb, hu, hd, hown, hpf, hff, hm, hmt, hct, noEffects]
  case neg =>
    have hc := uploadAfterTemp_cleanup cfg r dbv m
      { noEffects with formParsed := true, tempCreated := true } (by simp [noEffects])
    simp only [handlerUploadVideo, hv, hb, hu, hd, hown, hpf, hff, hm, hmt, hct]
    simp only [noEffects] at hc ⊢
    constructor
    · intro _
      simp
    · intro hcr
      refine ?_
      have := hc.1
      simp only [Effects.mk.injEq] at *
      simp_all

/-- A request that fails at the object-store put, after staging and
transcoding both succeeded. -/
def reqPutFail : UploadRequest :=
  ⟨some "vid", some "tok", some "uid", some dbvW, true, true,
   some "video/mp4", true, true, some [⟨1000, 1000, "9:16"⟩], true, true,
   true, List.replicate 32 0, false, false, fun _ _ => Except.error "unused"⟩

/-- C9 witness: on a run that stages, transcodes and then fails at the
put, both local files were created and both were removed. -/
theorem upload_cleans_local_files_witness :
    (handlerUploadVideo cfgW reqPutFail).effects.tempRemoved = true ∧
    (handlerUploadVideo cfgW reqPutFail).effects.processedRemoved = true :=
  ⟨(upload_cleans_local_files cfgW reqPutFail).1 (by decide),
   (upload_cleans_local_files cfgW reqPutFail).2 (by decide)⟩

/-! ## Base64 token lemmas -/

/-- Any 6-bit value maps into the URL-safe alphabet class. -/
theorem b64Char_is_url_char (n : Nat) (h : n < 64) :
    isBase64URLChar (b64Char n) = true := by
  revert h
  revert n
  decide

/-- The encoded length is Go's `RawURLEncoding.EncodedLen`:
`(n*8 + 5) / 6` characters for `n` input bytes. -/
theorem base64RawURLEncode_length :
    ∀ l : List Nat, (base64RawURLEncode l).length = (l.length * 8 + 5) / 6
  | [] => rfl
  | [_] => by simp [base64RawURLEncode]
  | [_, _] => by simp [base64RawURLEncode]
  | _ :: _ :: _ :: rest => by
    have ih := base64RawURLEncode_length rest
    simp only [base64RawURLEncode, List.length_cons, ih]
    omega

/-- Every character the encoder emits for genuine bytes (each `< 256`)
lies in the URL-safe alphabet class. -/
theorem base64RawURLEncode_chars :
    ∀ l : List Nat, (∀ b ∈ l, b < 256) →
      ∀ ch ∈ base64RawURLEncode l, isBase64URLChar ch = true
  | [], _, ch, hch => by simp [base64RawURLEncode] at hch
  | [b0], hb, ch, hch => by
    have h0 : b0 < 256 := hb b0 (by simp)
    simp only [base64RawURLEncode, List.mem_cons, List.not_mem_nil, or_false] at hch
    rcases hch with h | h <;>
      (rw [h]; exact b64Char_is_url_char _ (by omega))
  | [b0, b1], hb, ch, hch => by
    have h0 : b0 < 256 := hb b0 (by simp)
    have h1 : b1 < 256 := hb b1 (by simp)
    simp only [base64RawURLEncode, List.mem_cons, List.not_mem_nil, or_false] at hch
    rcases hch with h | h | h <;>
      (rw [h]; exact b64Char_is_url_char _ (by omega))
  | b0 :: b1 :: b2 :: rest, hb, ch, hch => by
    have h0 : b0 < 256 := hb b0 (by simp)
    have h1 : b1 < 256 := hb b1 (by simp)
    have h2 : b2 < 256 := hb b2 (by simp)
    have hrest : ∀ b ∈ rest, b < 256 := by
      intro b hbr
      exact hb b (by simp [hbr])
    simp only [base64RawURLEncode, List.mem_cons] at hch
    rcases hch with h | h | h | h | h
    · rw [h]; exact b64Char_is_url_char _ (by omega)
    · rw [h]; exact b64Char_is_url_char _ (by omega)
    · rw [h]; exact b64Char_is_url_char _ (by omega)
    · rw [h]; exact b64Char_is_url_char _ (by omega)
    · exact base64RawURLEncode_chars rest hrest ch h

/-- The classification prefix is always one of the three buckets. -/
theorem aspectRatioToPrefix_cases (ar : String) :
    aspectRatioToPrefix ar = "landscape" ∨ aspectRatioToPrefix ar = "portrait" ∨
      aspectRatioToPrefix ar = "other" := by
  unfold aspectRatioToPrefix
  split_ifs <;> simp

/-! ## C8: the object key format -/

/-- C8: for every classification outcome and every 32-byte random draw,
the generated object key is `{classificationPrefix}/{token}.{extension}`
with the prefix one of landscape/portrait/other, the token the unpadded
URL-safe base64 encoding of the 32 bytes — exactly 43 characters over
`[A-Za-z0-9_-]` — and the extension the one resolved from the declared
`video/mp4` media type. -/
theorem video_key_format (ar : String) (bytes : List Nat)
    (hlen : bytes.length = 32) (hbytes : ∀ b ∈ bytes, b < 256) :
    ∃ token : String,
      generateVideoKey (aspectRatioToPrefix ar) "video/mp4" bytes =
        aspectRatioToPrefix ar ++ "/" ++ token ++ "." ++
          mediaTypeToVideoExtension "video/mp4" ∧
      (aspectRatioToPrefix ar = "landscape" ∨ aspectRatioToPrefix ar = "portrait" ∨
        aspectRatioToPrefix ar = "other") ∧
      token.length = 43 ∧
      ∀ c ∈ token.data, isBase64URLChar c = true := by
  refine ⟨String.mk (base64RawURLEncode bytes), rfl, aspectRatioToPrefix_cases ar,
    ?_, ?_⟩
  · show (base64RawURLEncode bytes).length = 43
    rw [base64RawURLEncode_length, hlen]
  · intro c hc
    exact base64RawURLEncode_chars bytes hbytes c hc

/-- C8 witness: the all-zero 32-byte draw under a landscape classification
yields `landscape/AAAAAAAAAAAAAAAAAAAAAAAAAAAAAAAAAAAAAAAAAAA.mp4`. -/
theorem video_key_format_witness :
    ∃ token : String,
      generateVideoKey (aspectRatioToPrefix "16:9") "video/mp4" (List.replicate 32 0) =
        aspectRatioToPrefix "16:9" ++ "/" ++ token ++ "." ++
          mediaTypeToVideoExtension "video/mp4" ∧
      (aspectRatioToPrefix "16:9" = "landscape" ∨
        aspectRatioToPrefix "16:9" = "portrait" ∨
        aspectRatioToPrefix "16:9" = "other") ∧
      token.length = 43 ∧
      ∀ c ∈ token.data, isBase64URLChar c = true :=
  video_key_format "16:9" (List.replicate 32 0) (by decide) (by decide)

/-! ## Split lemmas for the composite reference -/

/-- `strings.Split` never yields an empty slice. -/
theorem splitOnChar_ne_nil (c : Char) (l : List Char) : splitOnChar c l ≠ [] := by
  cases l with
  | nil => simp [splitOnChar]
  | cons x xs =>
    simp only [splitOnChar]
    split_ifs <;> simp

/-- A list without the separator splits into the single run that is the
whole list. -/
theorem splitOnChar_not_mem (c : Char) (l : List Char) (h : c ∉ l) :
    splitOnChar c l = [l] := by
  induction l with
  | nil => rfl
  | cons x xs ih =>
    have hx : ¬x = c := fun hc => h (by simp [hc])
    have hxs : c ∉ xs := fun hc => h (by simp [hc])
    simp [splitOnChar, hx, ih hxs]

/-- Splitting around the first separator occurrence: a separator-free run,
the separator, then the remainder. -/
theorem splitOnChar_append (c : Char) (l₁ l₂ : List Char) (h : c ∉ l₁) :
    splitOnChar c (l₁ ++ c :: l₂) = l₁ :: splitOnChar c l₂ := by
  induction l₁ with
  | nil => simp [splitOnChar]
  | cons x xs ih =>
    have hx : ¬x = c := fun hc => h (by simp [hc])
    have hxs : c ∉ xs := fun hc => h (by simp [hc])
    simp [splitOnChar, hx, ih hxs]

/-- The number of components is one more than the separator count. -/
theorem splitOnChar_length (c : Char) (l : List Char) :
    (splitOnChar c l).length = l.count c + 1 := by
  induction l with
  | nil => simp [splitOnChar]
  | cons x xs ih =>
    by_cases hx : x = c
    · subst hx
      simp [splitOnChar, List.count_cons, ih]
    · have hne := splitOnChar_ne_nil c xs
      simp only [splitOnChar, if_neg hx, List.length_cons]
      rw [List.length_tail]
      have hpos : 0 < (splitOnChar c xs).length := List.length_pos.mpr hne
      simp [List.count_cons, hx, ih]

/-- The generated object key never contains the comma delimiter: the
prefix is one of three comma-free words, the token stays in the URL-safe
alphabet and the extension is `mp4`. -/
theorem generateVideoKey_no_comma (ar : String) (bytes : List Nat)
    (hbytes : ∀ b ∈ bytes, b < 256) :
    ',' ∉ (generateVideoKey (aspectRatioToPrefix ar) "video/mp4" bytes).data := by
  intro hmem
  unfold generateVideoKey at hmem
  simp only [String.data_append, List.mem_append] at hmem
  rcases hmem with ((((hp | hs) | ht) | hd) | he)
  · rcases aspectRatioToPrefix_cases ar with h | h | h <;> rw [h] at hp <;>
      simp at hp
  · simp at hs
  · have := base64RawURLEncode_chars bytes hbytes ',' ht
    simp [isBase64URLChar] at this
  · simp at hd
  · simp [mediaTypeToVideoExtension] at he

/-! ## C6: the composite reference round-trip -/

/-- C6 counterexample: for a bucket name that itself contains the comma
delimiter ("a,b"), splitting the encoded composite reference does not
reconstruct the original bucket and key: the handler's split yields "a"
and "b" as the first two components. -/
theorem composite_reference_round_trip_counterexample :
    ¬ ((splitComma ("a,b" ++ "," ++
          generateVideoKey "other" "video/mp4" (List.replicate 32 0))).getD 0 "" = "a,b" ∧
       (splitComma ("a,b" ++ "," ++
          generateVideoKey "other" "video/mp4" (List.replicate 32 0))).getD 1 "" =
        generateVideoKey "other" "video/mp4" (List.replicate 32 0)) := by
  decide

/-- C6 amended: for every bucket name free of the comma delimiter (as all
valid S3 bucket names are) and every key the generator produces from
32 genuine bytes, splitting the composite `{bucket},{key}` on the comma
yields exactly the original bucket and key as the two components used for
presigning. -/
theorem composite_reference_round_trip (bucket : String)
    (hb : ',' ∉ bucket.data) (ar : String) (bytes : List Nat)
    (hbytes : ∀ b ∈ bytes, b < 256) :
    splitComma (bucket ++ "," ++
        generateVideoKey (aspectRatioToPrefix ar) "video/mp4" bytes) =
      [bucket, generateVideoKey (aspectRatioToPrefix ar) "video/mp4" bytes] := by
  have hk := generateVideoKey_no_comma ar bytes hbytes
  unfold splitComma
  have hdata : (bucket ++ "," ++
      generateVideoKey (aspectRatioToPrefix ar) "video/mp4" bytes).data =
      bucket.data ++ ',' ::
        (generateVideoKey (aspectRatioToPrefix ar) "video/mp4" bytes).data := by
    simp [String.data_append]
  rw [hdata, splitOnChar_append ',' _ _ hb, splitOnChar_not_mem ',' _ hk]
  simp

/-- C6 witness: the concrete bucket "tube" and the key from an all-zero
32-byte draw round-trip through the comma split. -/
theorem composite_reference_round_trip_witness :
    splitComma ("tube" ++ "," ++
        generateVideoKey (aspectRatioToPrefix "16:9") "video/mp4" (List.replicate 32 0)) =
      ["tube", generateVideoKey (aspectRatioToPrefix "16:9") "video/mp4" (List.replicate 32 0)] :=
  composite_reference_round_trip "tube" (by decide) "16:9" (List.replicate 32 0)
    (by decide)

/-! ## C10: signing skips absent or malformed references -/

/-- C10: for every video record whose stored reference is `nil`, or whose
reference splits into fewer than two comma-separated components, the
signing conversion returns the record unchanged with no error; the
conclusion holds for every presign oracle alike, so no presign call can be
observed. -/
theorem signing_skips_missing_or_malformed_reference (video : Video)
    (presign : String → String → Except String String)
    (h : video.videoURL = none ∨
      ∀ url, video.videoURL = some url → (splitComma url).length < 2) :
    dbVideoToSignedVideo presign video = Except.ok video := by
  unfold dbVideoToSignedVideo
  cases hu : video.videoURL with
  | none => rfl
  | some url =>
    rcases h with h | h
    · rw [hu] at h
      cases h
    · simp [h url hu]

/-- C10 witness: a record whose reference has no comma passes through the
signing conversion unchanged even under an always-failing presigner. -/
theorem signing_skips_missing_or_malformed_reference_witness :
    dbVideoToSignedVideo (fun _ _ => Except.error "presign refused")
      ⟨"v", "u", some "tubelandscapetok"⟩ =
      Except.ok ⟨"v", "u", some "tubelandscapetok"⟩ :=
  signing_skips_missing_or_malformed_reference ⟨"v", "u", some "tubelandscapetok"⟩
    (fun _ _ => Except.error "presign refused")
    (Or.inr (by
      intro url hu
      injection hu with h
      subst h
      decide))

/-! ## C5: the durable record keeps the composite reference -/

/-- C5: on every successful ingestion (all collaborator steps succeed and
the presigner answers with a signed URL), the record passed to
`UpdateVideo` carries the composite `{bucket},{key}` reference — not the
signed URL — while the response payload carries the record with the signed
URL in its place: signing replaces the reference only in the response. -/
theorem upload_persists_composite_and_signs_response (cfg : apiConfig)
    (r : UploadRequest) (vid tok uid signed : String) (dbv : Video)
    (streams : List StreamInfo) (aspect : String)
    (h1 : r.videoID = some vid) (h2 : r.bearerToken = some tok)
    (h3 : r.validatedUser = some uid) (h4 : r.dbVideo = some dbv)
    (h5 : dbv.userID = uid) (h6 : r.parseFormOk = true)
    (h7 : r.formFileOk = true) (h8 : r.mediaType = some "video/mp4")
    (h9 : r.createTempOk = true) (h10 : r.copyOk = true)
    (h11 : r.probeStreams = some streams)
    (h12 : getVideoAspectRatio streams = Except.ok aspect)
    (h13 : r.ffmpegOk = true) (h14 : r.openProcessedOk = true)
    (h15 : r.randOk = true) (h16 : r.putOk = true) (h17 : r.updateOk = true)
    (h18 : ∀ b k, r.presign b k = Except.ok signed) :
    (handlerUploadVideo cfg r).status = 200 ∧
    (handlerUploadVideo cfg r).effects.updateCalled =
      some { dbv with videoURL := some (cfg.s3Bucket ++ "," ++
        generateVideoKey (aspectRatioToPrefix aspect) "video/mp4" r.randBytes) } ∧
    (handlerUploadVideo cfg r).video =
      some { dbv with videoURL := some signed } := by
  have hsplit2 : ¬ (splitComma (cfg.s3Bucket ++ "," ++
      generateVideoKey (aspectRatioToPrefix aspect) "video/mp4" r.randBytes)).length < 2 := by
    have hdata : (cfg.s3Bucket ++ "," ++
        generateVideoKey (aspectRatioToPrefix aspect) "video/mp4" r.randBytes).data =
        cfg.s3Bucket.data ++ ',' ::
          (generateVideoKey (aspectRatioToPrefix aspect) "video/mp4" r.randBytes).data := by
      simp [String.data_append]
    unfold splitComma
    rw [List.length_map, splitOnChar_length, hdata, List.count_append,
      List.count_cons]
    simp
    omega
  have hsign :
      dbVideoToSignedVideo r.presign { dbv with videoURL := some (cfg.s3Bucket ++ "," ++ generateVideoKey (aspectRatioToPrefix aspect) "video/mp4" r.randBytes) } =
      Except.ok { dbv with videoURL := some signed } := by
    unfold dbVideoToSignedVideo
    simp [hsplit2, h18]
  rw [h5] at hsign
  simp [handlerUploadVideo, uploadAfterTemp, uploadAfterProcessed,
    h1, h2, h3, h4, h5, h6, h7, h8, h9, h10, h11, h12, h13, h14, h15, h16, h17,
    hsign]

/-- A fully successful upload request: owner authenticated, `video/mp4`
declared, probe reporting an explicit "9:16" stream, all tool and store
calls succeeding, and a presigner answering with a fixed signed URL. -/
def reqSuccess : UploadRequest :=
  ⟨some "vid", some "tok", some "uid", some dbvW, true, true, some "video/mp4",
   true, true, some [⟨1000, 1000, "9:16"⟩], true, true, true,
   List.replicate 32 0, true, true, fun _ _ => Except.ok "https://signed.example/url"⟩

/-- C5 witness: on the concrete successful run, `UpdateVideo` received the
composite `tube,portrait/{token}.mp4` reference and the response carried
the signed URL. -/
theorem upload_persists_composite_and_signs_response_witness :
    (handlerUploadVideo cfgW reqSuccess).status = 200 ∧
    (handlerUploadVideo cfgW reqSuccess).effects.updateCalled =
      some { dbvW with videoURL := some (cfgW.s3Bucket ++ "," ++
        generateVideoKey (aspectRatioToPrefix "9:16") "video/mp4" (List.replicate 32 0)) } ∧
    (handlerUploadVideo cfgW reqSuccess).video =
      some { dbvW with videoURL := some "https://signed.example/url" } :=
  upload_persists_composite_and_signs_response cfgW reqSuccess "vid" "tok" "uid"
    "https://signed.example/url" dbvW [⟨1000, 1000, "9:16"⟩] "9:16"
    rfl rfl rfl rfl rfl rfl rfl rfl rfl rfl rfl
    (by simp [getVideoAspectRatio, List.find?]) rfl rfl rfl rfl rfl
    (fun b k => rfl)
